import Mathlib

/-!
# Verification of the PayPal MCP server against its specification

Shallow embedding of the TypeScript sources:
* `src/utils/logger.ts` / `src/utils/validation.ts` — `sanitizeForLogging`,
  `validateInput`, the tool-name → zod-schema map;
* `src/schemas/payment.schemas.ts`, business schemas, `src/schemas/user.schemas.ts`
  — the zod validation schemas, over a model of the zod combinators used;
* `src/services/auth.service.ts` — `ensureAccessToken`, `getAccessToken`,
  the axios response interceptor (401 replay);
* the MCP server entry point — `ListTools` / `CallTool` request handlers;
* `src/config.ts` — environment-derived configuration.

JavaScript runtime values that flow through these functions are modelled by
`JsValue`; machine time (`Date.now()`) and token lifetimes are modelled as `Int`
(JavaScript numbers are integral in every expression involved).
-/

/-- A JavaScript/JSON runtime value as handled by the server: `null`, booleans,
(integral) numbers, strings, arrays and plain objects.  Objects are ordered
association lists, mirroring JS own-key enumeration order. -/
inductive JsValue where
  | null
  | bool (b : Bool)
  | num (n : Int)
  | str (s : String)
  | arr (elems : List JsValue)
  | obj (fields : List (String × JsValue))

/-- `typeof v === 'object' && v !== null` for the values of `JsValue`:
true exactly on arrays and objects (JS arrays have typeof `object`). -/
def JsValue.isObjectLike : JsValue → Bool
  | .arr _ => true
  | .obj _ => true
  | _ => false

/-! ## `sanitizeForLogging` (src/utils/validation.ts, lines 167–198) -/

/-- JavaScript `String.prototype.toLowerCase()` for the ASCII field names the
server handles: each character is lower-cased individually. -/
def toLowerCase (s : String) : String := ⟨s.data.map Char.toLower⟩

/-- The `sensitiveFields` list, verbatim from `sanitizeForLogging`.
Note the entry `'clientSecret'`: the source compares it against
`key.toLowerCase()`, which can never equal a string containing `S`. -/
def sensitiveFields : List String :=
  ["client_secret", "clientSecret", "secret", "password", "security_code",
   "cvv", "cvv2", "card_number", "number", "access_token", "refresh_token",
   "token"]

mutual
/-- `sanitizeForLogging(data)`.  The source returns non-objects (and `null`)
unchanged, copies arrays/objects, replaces the value under every key whose
lower-cased name is in `sensitiveFields` by `'[REDACTED]'`, and recurses into
object-like values under other keys. -/
def sanitizeForLogging : JsValue → JsValue
  | .obj fields => .obj (sanitizeFields fields)
  | .arr elems => .arr (sanitizeElems elems)
  | v => v

/-- The `for (const key in result)` loop over an object's entries: a key whose
lower-casing is in `sensitiveFields` is overwritten with `'[REDACTED]'`; an
object-valued entry under any other key is sanitized recursively; everything
else is kept. -/
def sanitizeFields : List (String × JsValue) → List (String × JsValue)
  | [] => []
  | (k, v) :: rest =>
    (match sensitiveFields.contains (toLowerCase k), v.isObjectLike with
     | true, _ => (k, JsValue.str "[REDACTED]")
     | false, true => (k, sanitizeForLogging v)
     | false, false => (k, v)) :: sanitizeFields rest

/-- The same loop over an array: the enumerated keys are the decimal indices
`"0"`, `"1"`, …, none of which occurs in `sensitiveFields`, so only the
recursion branch is reachable for elements. -/
def sanitizeElems : List JsValue → List JsValue
  | [] => []
  | v :: rest =>
    (match v.isObjectLike with
     | true => sanitizeForLogging v
     | false => v) :: sanitizeElems rest
end

theorem sanitize_preserves_isObjectLike (v : JsValue) :
    (sanitizeForLogging v).isObjectLike = v.isObjectLike := by
  cases v <;> simp [sanitizeForLogging, JsValue.isObjectLike]

mutual
theorem sanitizeForLogging_idem (v : JsValue) :
    sanitizeForLogging (sanitizeForLogging v) = sanitizeForLogging v := by
  cases v with
  | obj fields => simp [sanitizeForLogging, sanitizeFields_idem fields]
  | arr elems => simp [sanitizeForLogging, sanitizeElems_idem elems]
  | null => rfl
  | bool b => rfl
  | num n => rfl
  | str s => rfl

theorem sanitizeFields_idem (fields : List (String × JsValue)) :
    sanitizeFields (sanitizeFields fields) = sanitizeFields fields := by
  cases fields with
  | nil => rfl
  | cons kv rest =>
    obtain ⟨k, v⟩ := kv
    cases hs : sensitiveFields.contains (toLowerCase k) with
    | true =>
      simp only [sanitizeFields, hs, JsValue.isObjectLike,
        sanitizeFields_idem rest]
    | false =>
      cases ho : v.isObjectLike with
      | true =>
        simp only [sanitizeFields, hs, ho, sanitize_preserves_isObjectLike,
          sanitizeForLogging_idem v, sanitizeFields_idem rest]
      | false =>
        simp only [sanitizeFields, hs, ho, sanitizeFields_idem rest]

theorem sanitizeElems_idem (elems : List JsValue) :
    sanitizeElems (sanitizeElems elems) = sanitizeElems elems := by
  cases elems with
  | nil => rfl
  | cons v rest =>
    cases ho : v.isObjectLike with
    | true =>
      simp only [sanitizeElems, ho, sanitize_preserves_isObjectLike,
        sanitizeForLogging_idem v, sanitizeElems_idem rest]
    | false =>
      simp only [sanitizeElems, ho, sanitizeElems_idem rest]
end

/-- C9: the logging sanitizer is idempotent — applying `sanitizeForLogging`
twice yields the same structure as applying it once; already-masked and
sensitive-named fields remain `'[REDACTED]'`, all other fields are unchanged
by the second application. -/
theorem claim_C9_sanitizeForLogging_idempotent (v : JsValue) :
    sanitizeForLogging (sanitizeForLogging v) = sanitizeForLogging v :=
  sanitizeForLogging_idem v

/-- C5 (failing input): `'clientSecret'` occurs verbatim in the source's
`sensitiveFields` list, yet `sanitizeForLogging` compares list entries with
`key.toLowerCase()`, so a field actually named `clientSecret` is left
unredacted: its secret value survives sanitization. -/
theorem claim_C5_clientSecret_not_redacted :
    sensitiveFields.contains "clientSecret" = true ∧
    sanitizeForLogging (JsValue.obj [("clientSecret", JsValue.str "s3cret")]) =
      JsValue.obj [("clientSecret", JsValue.str "s3cret")] := by
  have h : sensitiveFields.contains (toLowerCase "clientSecret") = false := by decide
  exact ⟨by decide, by simp only [sanitizeForLogging, sanitizeFields, h,
    JsValue.isObjectLike]⟩

/-! ## Model of the zod string/number checks used by the schemas

The schemas call into the zod library, whose semantics (not part of this
repository) we model: `z.object` parses in *strip* mode — each declared field
is looked up by name, missing optional fields are skipped, missing required
fields are an issue, and undeclared keys are silently dropped — while
`.strict()` additionally reports undeclared keys as an issue.  Format checks
(`.email()`, `.url()`, `.datetime()`) are modelled by executable recognizers of
the documented formats; the four regex literals appearing in the schemas are
modelled exactly. -/

/-- Split a character list at a separator character. -/
def splitOnChar (sep : Char) : List Char → List (List Char)
  | [] => [[]]
  | c :: rest =>
    match splitOnChar sep rest with
    | [] => [[]]
    | part :: parts => if c == sep then [] :: part :: parts else (c :: part) :: parts

/-- Model of `z.string().email()`: local part, `@`, and a dotted domain. -/
def isEmailLike (s : String) : Bool :=
  match splitOnChar '@' s.data with
  | [lp, dom] => !lp.isEmpty && !dom.isEmpty && dom.contains '.'
  | _ => false

/-- Does one character list start with another? -/
def startsWithChars : List Char → List Char → Bool
  | [], _ => true
  | _ :: _, [] => false
  | p :: ps, c :: cs => p == c && startsWithChars ps cs

/-- Model of `z.string().url()`: an absolute http(s) URL. -/
def isUrlLike (s : String) : Bool :=
  startsWithChars "http://".data s.data || startsWithChars "https://".data s.data

/-- Model of `z.string().datetime()`: `YYYY-MM-DDTHH:MM:SS`, optional
fractional seconds, terminated by `Z`. -/
def isIsoDatetime (s : String) : Bool :=
  match s.data with
  | y1 :: y2 :: y3 :: y4 :: '-' :: m1 :: m2 :: '-' :: d1 :: d2 :: 'T' ::
      h1 :: h2 :: ':' :: mi1 :: mi2 :: ':' :: s1 :: s2 :: rest =>
    [y1, y2, y3, y4, m1, m2, d1, d2, h1, h2, mi1, mi2, s1, s2].all Char.isDigit &&
    (rest == ['Z'] ||
      match rest with
      | '.' :: fs => fs.dropLast.all Char.isDigit && fs.getLast? == some 'Z' && fs.length ≥ 2
      | _ => false)
  | _ => false

/-- The regex `^\d+\.?\d*$` (schema field `value` of an amount). -/
def isDecimalString (s : String) : Bool :=
  match s.data.span Char.isDigit with
  | ([], _) => false
  | (_ :: _, []) => true
  | (_ :: _, '.' :: ds) => ds.all Char.isDigit
  | (_ :: _, _ :: _) => false

/-- The regex `^[a-z]{2}[-_][A-Z]{2}$` (web-profile `locale_code`). -/
def isLocaleCode (s : String) : Bool :=
  match s.data with
  | [a, b, sep, c, d] =>
    a.isLower && b.isLower && (sep == '-' || sep == '_') && c.isUpper && d.isUpper
  | _ => false

/-- A single validation rule attached to a `z.string()`. -/
inductive StrCheck where
  | minLen (n : Nat)
  | maxLen (n : Nat)
  | email
  | url
  | datetime
  | digits (lo : Nat) (hi : Nat)
  | decimalValue
  | localeCode

/-- A single validation rule attached to a `z.number()`. -/
inductive NumCheck where
  | minVal (n : Int)
  | maxVal (n : Int)
  | isInt
  | positive

/-- Run one string check. `.digits lo hi` is the regex `^\d{lo,hi}$`. -/
def runStrCheck (s : String) : StrCheck → Bool
  | .minLen n => decide (n ≤ s.data.length)
  | .maxLen n => decide (s.data.length ≤ n)
  | .email => isEmailLike s
  | .url => isUrlLike s
  | .datetime => isIsoDatetime s
  | .digits lo hi =>
    s.data.all Char.isDigit && decide (lo ≤ s.data.length) && decide (s.data.length ≤ hi)
  | .decimalValue => isDecimalString s
  | .localeCode => isLocaleCode s

/-- Run one numeric check.  Numbers are modelled as integers, so `.int()`
always passes (no claim depends on rejecting fractional numbers). -/
def runNumCheck (n : Int) : NumCheck → Bool
  | .minVal lo => decide (lo ≤ n)
  | .maxVal hi => decide (n ≤ hi)
  | .isInt => true
  | .positive => decide (0 < n)

/-- A zod schema, restricted to the combinators the three schema files use.
In `zobject`, each field is `(name, type, optional)`; `strict` distinguishes
`.strict()` object schemas (user schemas) from default strip-mode ones. -/
inductive ZodType where
  | zstring (checks : List StrCheck)
  | znumber (checks : List NumCheck)
  | zboolean
  | zenum (lits : List String)
  | zarray (elem : ZodType) (minItems : Nat)
  | zobject (fields : List (String × ZodType × Bool)) (strict : Bool)

/-- One reported validation issue: field path plus message. -/
structure ZodIssue where
  path : List String
  message : String

/-- First binding under a key, as JS property lookup on a plain object. -/
def lookupField : List (String × JsValue) → String → Option JsValue
  | [], _ => none
  | (k, v) :: rest, name => if k == name then some v else lookupField rest name

/-- Result of parsing one declared object field: `none` when an optional
field is absent, otherwise the parsed binding or the issues it produced. -/
abbrev FieldResult := Option (Except (List ZodIssue) (String × JsValue))

/-- Parse one declared object field `f = (name, type, optional)` against the
supplied bindings, recursing through `pz`: a missing optional field is
skipped, a missing required field is an issue, a present field is parsed with
its own schema and its parsed value rebound under its name. -/
def parseFieldWith (pz : ZodType → List String → JsValue → Except (List ZodIssue) JsValue)
    (path : List String) (kvs : List (String × JsValue))
    (f : String × ZodType × Bool) : FieldResult :=
  match lookupField kvs f.1 with
  | none => if f.2.2 then none else some (.error [⟨path ++ [f.1], "Required"⟩])
  | some v0 => some ((pz f.2.1 (path ++ [f.1]) v0).map (fun pv => (f.1, pv)))

/-- `schema.parse(value)` (issues collected rather than thrown), structurally
recursive on a nesting-depth fuel so that it evaluates; `parseZod` below fixes
the fuel at 1000, far above the nesting depth of every registered schema, so
the out-of-fuel branch is unreachable on them.  On success the returned value
is the parsed one: objects are rebuilt from their declared fields only (zod
strip mode), so undeclared keys are dropped; a `.strict()` object additionally
reports undeclared keys as an issue.  A missing required field is an issue, a
missing optional field is skipped, a present field is parsed with its own
schema. -/
def parseZodF : Nat → ZodType → List String → JsValue → Except (List ZodIssue) JsValue
  | 0, _, path, _ => .error [⟨path, "Nesting too deep"⟩]
  | fuel + 1, schema, path, v =>
    match schema with
    | .zstring checks =>
      match v with
      | .str s =>
        match (checks.filter (fun c => !runStrCheck s c)).map
            (fun _ => ZodIssue.mk path "Invalid string") with
        | [] => .ok (.str s)
        | issues => .error issues
      | _ => .error [⟨path, "Expected string"⟩]
    | .znumber checks =>
      match v with
      | .num n =>
        match (checks.filter (fun c => !runNumCheck n c)).map
            (fun _ => ZodIssue.mk path "Invalid number") with
        | [] => .ok (.num n)
        | issues => .error issues
      | _ => .error [⟨path, "Expected number"⟩]
    | .zboolean =>
      match v with
      | .bool b => .ok (.bool b)
      | _ => .error [⟨path, "Expected boolean"⟩]
    | .zenum lits =>
      match v with
      | .str s =>
        if lits.contains s then .ok (.str s) else .error [⟨path, "Invalid enum value"⟩]
      | _ => .error [⟨path, "Expected string"⟩]
    | .zarray elem minItems =>
      match v with
      | .arr elems =>
        let results := elems.enum.map
          (fun iv => parseZodF fuel elem (path ++ [Nat.repr iv.1]) iv.2)
        let issues := results.foldr
          (fun r acc => match r with | .ok _ => acc | .error is => is ++ acc) []
        let parsed := results.foldr
          (fun r acc => match r with | .ok pv => pv :: acc | .error _ => acc) []
        let sizeIssues : List ZodIssue :=
          if elems.length < minItems then [⟨path, "Too small"⟩] else []
        match issues ++ sizeIssues with
        | [] => .ok (.arr parsed)
        | allIssues => .error allIssues
      | _ => .error [⟨path, "Expected array"⟩]
    | .zobject fields strict =>
      match v with
      | .obj kvs =>
        let results : List FieldResult := fields.map
          (parseFieldWith (fun t p w => parseZodF fuel t p w) path kvs)
        let issues := results.foldr
          (fun r acc => match r with | some (.error is) => is ++ acc | _ => acc) []
        let parsed := results.foldr
          (fun r acc => match r with | some (.ok kv) => kv :: acc | _ => acc) []
        let extraIssues : List ZodIssue :=
          if strict && kvs.any (fun kv => fields.all (fun f => !(f.1 == kv.1))) then
            [⟨path, "Unrecognized key"⟩]
          else []
        match issues ++ extraIssues with
        | [] => .ok (.obj parsed)
        | allIssues => .error allIssues
      | _ => .error [⟨path, "Expected object"⟩]

/-- `schema.parse(value)` at the fixed fuel. -/
def parseZod (schema : ZodType) (path : List String) (v : JsValue) :
    Except (List ZodIssue) JsValue :=
  parseZodF 1000 schema path v

/-! ## Payment schemas (src/schemas/payment.schemas.ts) -/

namespace paymentSchemas

/-- `amountSchema`. -/
def amountSchema : ZodType :=
  .zobject [("currency_code", .zstring [.minLen 3, .maxLen 3], false),
            ("value", .zstring [.decimalValue], false)] false

/-- `addressSchema`. -/
def addressSchema : ZodType :=
  .zobject [("address_line_1", .zstring [], true),
            ("address_line_2", .zstring [], true),
            ("admin_area_1", .zstring [], true),
            ("admin_area_2", .zstring [], true),
            ("postal_code", .zstring [], true),
            ("country_code", .zstring [.minLen 2, .maxLen 2], false)] false

/-- `nameSchema`. -/
def nameSchema : ZodType :=
  .zobject [("given_name", .zstring [], false),
            ("surname", .zstring [], true)] false

/-- `payerSchema`. -/
def payerSchema : ZodType :=
  .zobject [("name", nameSchema, true),
            ("email_address", .zstring [.email], true),
            ("payer_id", .zstring [], true),
            ("address", addressSchema, true)] false

/-- `applicationContextSchema`. -/
def applicationContextSchema : ZodType :=
  .zobject [("brand_name", .zstring [], true),
            ("locale", .zstring [], true),
            ("landing_page", .zenum ["LOGIN", "BILLING", "NO_PREFERENCE"], true),
            ("shipping_preference",
              .zenum ["GET_FROM_FILE", "NO_SHIPPING", "SET_PROVIDED_ADDRESS"], true),
            ("user_action", .zenum ["CONTINUE", "PAY_NOW"], true),
            ("return_url", .zstring [.url], true),
            ("cancel_url", .zstring [.url], true)] false

/-- `createPaymentTokenSchema`. -/
def createPaymentTokenSchema : ZodType :=
  .zobject
    [("customer",
      .zobject [("id", .zstring [], true),
                ("email_address", .zstring [.email], true),
                ("phone",
                  .zobject [("phone_number", .zstring [], false),
                            ("phone_type", .zenum ["HOME", "WORK", "MOBILE", "OTHER"], false)]
                    false, true)] false, false),
     ("payment_source",
      .zobject [("card",
        .zobject [("number", .zstring [.digits 13 19], false),
                  ("expiry", .zstring [.digits 4 4], false),
                  ("name", .zstring [], false),
                  ("security_code", .zstring [.digits 3 4], false),
                  ("billing_address", addressSchema, true)] false, false)] false, false)]
    false

/-- `createOrderSchema`. -/
def createOrderSchema : ZodType :=
  .zobject
    [("intent", .zenum ["CAPTURE", "AUTHORIZE"], false),
     ("purchase_units",
      .zarray
        (.zobject [("reference_id", .zstring [], true),
                   ("description", .zstring [], true),
                   ("custom_id", .zstring [], true),
                   ("invoice_id", .zstring [], true),
                   ("amount", amountSchema, false),
                   ("payee",
                     .zobject [("email_address", .zstring [.email], true),
                               ("merchant_id", .zstring [], true)] false, true),
                   ("shipping",
                     .zobject [("name", nameSchema, false),
                               ("address", addressSchema, false)] false, true)] false)
        1, false),
     ("payer", payerSchema, true),
     ("application_context", applicationContextSchema, true)] false

/-- `captureOrderSchema`. -/
def captureOrderSchema : ZodType :=
  .zobject
    [("order_id", .zstring [], false),
     ("payment_source",
      .zobject [("token",
        .zobject [("id", .zstring [], false),
                  ("type", .zstring [], false)] false, false)] false, true)] false

/-- `createPaymentSchema`. -/
def createPaymentSchema : ZodType :=
  .zobject
    [("intent", .zenum ["sale", "authorize", "order"], false),
     ("payer",
      .zobject [("payment_method", .zenum ["paypal", "credit_card"], false),
                ("funding_instruments",
                  .zarray
                    (.zobject [("credit_card",
                      .zobject [("number", .zstring [.digits 13 19], false),
                                ("type", .zstring [], false),
                                ("expire_month", .znumber [.minVal 1, .maxVal 12], false),
                                ("expire_year", .znumber [.minVal 2000], false),
                                ("cvv2", .zstring [.digits 3 4], false),
                                ("first_name", .zstring [], false),
                                ("last_name", .zstring [], false),
                                ("billing_address", addressSchema, true)] false, false)]
                      false)
                    0, true)] false, false),
     ("transactions",
      .zarray
        (.zobject [("amount", amountSchema, false),
                   ("description", .zstring [], true),
                   ("custom", .zstring [], true),
                   ("invoice_number", .zstring [], true),
                   ("item_list",
                     .zobject [("items",
                                 .zarray
                                   (.zobject [("name", .zstring [], false),
                                              ("sku", .zstring [], true),
                                              ("price", .zstring [], false),
                                              ("currency", .zstring [.minLen 3, .maxLen 3], false),
                                              ("quantity", .znumber [.isInt, .positive], false)]
                                     false)
                                   0, true),
                               ("shipping_address", addressSchema, true)] false, true)] false)
        0, false),
     ("redirect_urls",
      .zobject [("return_url", .zstring [.url], false),
                ("cancel_url", .zstring [.url], false)] false, false)] false

/-- `createSubscriptionSchema`. -/
def createSubscriptionSchema : ZodType :=
  .zobject
    [("plan_id", .zstring [], false),
     ("start_time", .zstring [.datetime], true),
     ("quantity", .zstring [], true),
     ("shipping_amount", amountSchema, true),
     ("subscriber",
      .zobject [("name", nameSchema, false),
                ("email_address", .zstring [.email], false),
                ("shipping_address", addressSchema, true)] false, false),
     ("application_context", applicationContextSchema, true)] false

end paymentSchemas

/-! ## Business schemas (business schemas source file) -/

namespace businessSchemas

/-- `amountSchema` (business copy, identical to the payment one). -/
def amountSchema : ZodType :=
  .zobject [("currency_code", .zstring [.minLen 3, .maxLen 3], false),
            ("value", .zstring [.decimalValue], false)] false

/-- `addressSchema` (business copy). -/
def addressSchema : ZodType :=
  .zobject [("address_line_1", .zstring [], true),
            ("address_line_2", .zstring [], true),
            ("admin_area_1", .zstring [], true),
            ("admin_area_2", .zstring [], true),
            ("postal_code", .zstring [], true),
            ("country_code", .zstring [.minLen 2, .maxLen 2], false)] false

/-- `phoneSchema`. -/
def phoneSchema : ZodType :=
  .zobject [("country_code", .zstring [], true),
            ("national_number", .zstring [], false),
            ("extension_number", .zstring [], true),
            ("phone_type", .zenum ["FAX", "HOME", "MOBILE", "OTHER", "PAGER"], true)] false

/-- `createProductSchema`. -/
def createProductSchema : ZodType :=
  .zobject
    [("name", .zstring [.minLen 1, .maxLen 127], false),
     ("description", .zstring [.maxLen 256], true),
     ("type", .zenum ["PHYSICAL", "DIGITAL", "SERVICE"], false),
     ("category",
      .zenum ["ACCOMMODATION", "ACCESSORIES", "APPAREL", "ART", "AUTOMOTIVE", "BABY",
              "BOOKS", "COLLECTIBLES", "COMPUTER", "CRAFTS", "ELECTRONICS",
              "ENTERTAINMENT", "FITNESS", "FOOD", "FURNITURE", "GIFT_CARDS", "HEALTH",
              "HOME", "JEWELRY", "MERCHANDISE", "MUSIC", "OFFICE", "OTHER", "PETS",
              "PHOTOGRAPHY", "SERVICES", "SOFTWARE", "SPORTS", "TICKETS", "TOYS",
              "TRAVEL", "VIDEO_GAMES"], true),
     ("image_url", .zstring [.url], true),
     ("home_url", .zstring [.url], true)] false

/-- `createInvoiceSchema`. -/
def createInvoiceSchema : ZodType :=
  .zobject
    [("detail",
      .zobject [("invoice_number", .zstring [.maxLen 25], true),
                ("reference", .zstring [.maxLen 60], true),
                ("invoice_date", .zstring [.datetime], true),
                ("currency_code", .zstring [.minLen 3, .maxLen 3], false),
                ("note", .zstring [.maxLen 4000], true),
                ("term", .zstring [.maxLen 4000], true),
                ("memo", .zstring [.maxLen 4000], true),
                ("payment_term",
                  .zobject [("term_type",
                              .zenum ["DUE_ON_RECEIPT", "DUE_ON_DATE_SPECIFIED", "NET_10",
                                      "NET_15", "NET_30", "NET_45", "NET_60", "NET_90"],
                              false),
                            ("due_date", .zstring [.datetime], true)] false, true)]
        false, false),
     ("invoicer",
      .zobject [("name",
                  .zobject [("given_name", .zstring [.maxLen 140], true),
                            ("surname", .zstring [.maxLen 140], true)] false, true),
                ("address", addressSchema, true),
                ("email_address", .zstring [.email, .maxLen 260], true),
                ("phones", .zarray phoneSchema 0, true),
                ("website", .zstring [.url, .maxLen 2048], true),
                ("tax_id", .zstring [.maxLen 100], true),
                ("logo_url", .zstring [.url, .maxLen 2048], true)] false, true),
     ("primary_recipients",
      .zarray
        (.zobject [("billing_info",
                     .zobject [("name",
                                 .zobject [("given_name", .zstring [.maxLen 140], true),
                                           ("surname", .zstring [.maxLen 140], true)]
                                   false, true),
                               ("address", addressSchema, true),
                               ("email_address", .zstring [.email, .maxLen 260], true),
                               ("phones", .zarray phoneSchema 0, true)] false, true),
                   ("shipping_info",
                     .zobject [("name",
                                 .zobject [("given_name", .zstring [.maxLen 140], true),
                                           ("surname", .zstring [.maxLen 140], true)]
                                   false, true),
                               ("address", addressSchema, true)] false, true)] false)
        0, true),
     ("items",
      .zarray
        (.zobject [("name", .zstring [.maxLen 200], false),
                   ("description", .zstring [.maxLen 1000], true),
                   ("quantity", .znumber [.positive], false),
                   ("unit_amount", amountSchema, false),
                   ("tax", amountSchema, true),
                   ("discount", amountSchema, true),
                   ("unit_of_measure", .zstring [.maxLen 20], true)] false)
        0, true),
     ("configuration",
      .zobject [("partial_payment",
                  .zobject [("allow_partial_payment", .zboolean, false),
                            ("minimum_amount_due", amountSchema, true)] false, true),
                ("allow_tip", .zboolean, true),
                ("tax_calculated_after_discount", .zboolean, true),
                ("tax_inclusive", .zboolean, true)] false, true),
     ("amount",
      .zobject [("breakdown",
                  .zobject [("custom",
                              .zobject [("label", .zstring [.maxLen 25], false),
                                        ("amount", amountSchema, false)] false, true),
                            ("shipping", amountSchema, true),
                            ("discount", amountSchema, true)] false, true)] false, true)]
    false

/-- `createPayoutSchema`. -/
def createPayoutSchema : ZodType :=
  .zobject
    [("sender_batch_header",
      .zobject [("sender_batch_id", .zstring [.maxLen 50], false),
                ("email_subject", .zstring [.maxLen 255], true),
                ("email_message", .zstring [.maxLen 1000], true),
                ("recipient_type", .zenum ["EMAIL", "PHONE", "PAYPAL_ID"], true)] false,
      false),
     ("items",
      .zarray
        (.zobject [("recipient_type", .zenum ["EMAIL", "PHONE", "PAYPAL_ID"], true),
                   ("amount", amountSchema, false),
                   ("note", .zstring [.maxLen 1000], true),
                   ("receiver", .zstring [.maxLen 127], false),
                   ("sender_item_id", .zstring [.maxLen 50], true)] false)
        0, false)] false

end businessSchemas

/-! ## User schemas (src/schemas/user.schemas.ts); all are `.strict()` -/

namespace userSchemas

/-- `getUserInfoSchema`: an empty strict object. -/
def getUserInfoSchema : ZodType := .zobject [] true

/-- `flow_config` sub-schema shared by create/update web profile. -/
def flowConfigSchema : ZodType :=
  .zobject [("landing_page_type", .zenum ["billing", "login"], true),
            ("bank_txn_pending_url", .zstring [.url], true),
            ("user_action", .zenum ["commit", "continue"], true),
            ("return_uri_http_method", .zenum ["GET", "POST"], true)] false

/-- `input_fields` sub-schema shared by create/update web profile. -/
def inputFieldsSchema : ZodType :=
  .zobject [("allow_note", .zboolean, true),
            ("no_shipping", .znumber [.isInt, .minVal 0, .maxVal 2], true),
            ("address_override", .znumber [.isInt, .minVal 0, .maxVal 1], true)] false

/-- `presentation` sub-schema shared by create/update web profile. -/
def presentationSchema : ZodType :=
  .zobject [("brand_name", .zstring [.maxLen 127], true),
            ("logo_image", .zstring [.url], true),
            ("locale_code", .zstring [.localeCode], true),
            ("return_url_label", .zstring [.maxLen 50], true),
            ("note_to_seller_label", .zstring [.maxLen 50], true)] false

/-- `createWebProfileSchema`. -/
def createWebProfileSchema : ZodType :=
  .zobject [("name", .zstring [.minLen 1, .maxLen 50], false),
            ("temporary", .zboolean, true),
            ("flow_config", flowConfigSchema, true),
            ("input_fields", inputFieldsSchema, true),
            ("presentation", presentationSchema, true)] true

/-- `getWebProfilesSchema`. -/
def getWebProfilesSchema : ZodType := .zobject [] true

/-- `getWebProfileSchema`. -/
def getWebProfileSchema : ZodType := .zobject [("profile_id", .zstring [], false)] true

/-- `updateWebProfileSchema`. -/
def updateWebProfileSchema : ZodType :=
  .zobject [("profile_id", .zstring [], false),
            ("name", .zstring [.minLen 1, .maxLen 50], true),
            ("flow_config", flowConfigSchema, true),
            ("input_fields", inputFieldsSchema, true),
            ("presentation", presentationSchema, true)] true

/-- `deleteWebProfileSchema`. -/
def deleteWebProfileSchema : ZodType := .zobject [("profile_id", .zstring [], false)] true

end userSchemas

/-! ## `validateInput` (src/utils/validation.ts, lines 108–159) -/

/-- First value bound to a key, as JS property lookup (generic version). -/
def lookupKey {α : Type} : List (String × α) → String → Option α
  | [], _ => none
  | (k, v) :: rest, name => if k == name then some v else lookupKey rest name

/-- The `schemaMap` of tool names to validation schemas, verbatim. -/
def schemaMap : List (String × ZodType) :=
  [("create_payment_token", paymentSchemas.createPaymentTokenSchema),
   ("create_order", paymentSchemas.createOrderSchema),
   ("capture_order", paymentSchemas.captureOrderSchema),
   ("create_payment", paymentSchemas.createPaymentSchema),
   ("create_subscription", paymentSchemas.createSubscriptionSchema),
   ("create_product", businessSchemas.createProductSchema),
   ("create_invoice", businessSchemas.createInvoiceSchema),
   ("create_payout", businessSchemas.createPayoutSchema),
   ("get_userinfo", userSchemas.getUserInfoSchema),
   ("create_web_profile", userSchemas.createWebProfileSchema)]

/-- A log line relevant to the claims (level plus message). -/
inductive LogEvent where
  | warn (msg : String)
  | error (msg : String)
  | info (msg : String)
  | debug (msg : String)

/-- MCP protocol error codes used by the server. -/
inductive McpErrorCode where
  | invalidParams
  | methodNotFound

/-- `McpError` as thrown by `validateInput` and the CallTool handler. -/
structure McpError where
  code : McpErrorCode
  message : String

/-- `Array.prototype.join(sep)`. -/
def joinWith (sep : String) : List String → String
  | [] => ""
  | [s] => s
  | s :: rest => s ++ sep ++ joinWith sep rest

/-- `err.path.join('.') + ': ' + err.message`, as in `validateInput`'s
error formatting. -/
def formatZodIssue (i : ZodIssue) : String :=
  joinWith "." i.path ++ ": " ++ i.message

/-- `validateInput(toolName, args)`: unmapped tools pass through with a
warning; mapped tools parse, and a parse failure becomes an
`McpError(InvalidParams, ...)` listing every `path: message` pair. -/
def validateInput (toolName : String) (args : JsValue) :
    Except McpError JsValue × List LogEvent :=
  match lookupKey schemaMap toolName with
  | none =>
    (.ok args, [.warn ("No validation schema found for tool: " ++ toolName)])
  | some schema =>
    match parseZod schema [] args with
    | .ok v => (.ok v, [])
    | .error issues =>
      let formatted := joinWith ", " (issues.map formatZodIssue)
      (.error ⟨.invalidParams, "Invalid parameters for " ++ toolName ++ ": " ++ formatted⟩,
       [.error ("Validation error for " ++ toolName ++ ":")])

/-- Is an `Except` a success? -/
def exceptIsOk {ε α : Type} : Except ε α → Bool
  | .ok _ => true
  | .error _ => false

/-- C8: for a tool name with no registered schema, `validateInput` never
fails: it returns the arguments unchanged and logs exactly the warning. -/
theorem claim_C8_unregistered_passthrough (toolName : String) (args : JsValue)
    (h : lookupKey schemaMap toolName = none) :
    validateInput toolName args =
      (.ok args, [.warn ("No validation schema found for tool: " ++ toolName)]) := by
  simp only [validateInput, h]

/-- C8 witness: `get_product` is a registered tool with no schema; arbitrary
arguments pass through with the warning. -/
theorem claim_C8_unregistered_passthrough_witness :
    validateInput "get_product" (.obj [("product_id", .str "P-1"), ("junk", .null)]) =
      (.ok (.obj [("product_id", .str "P-1"), ("junk", .null)]),
       [.warn "No validation schema found for tool: get_product"]) :=
  claim_C8_unregistered_passthrough "get_product"
    (.obj [("product_id", .str "P-1"), ("junk", .null)]) rfl

/-! ## Closedness of the registered shapes (C4) -/

theorem lookupField_append_undeclared (kvs : List (String × JsValue)) (k : String)
    (v : JsValue) (name : String) (h : name ≠ k) :
    lookupField (kvs ++ [(k, v)]) name = lookupField kvs name := by
  induction kvs with
  | nil =>
    have hk : (k == name) = false := by
      cases hkk : k == name with
      | true => exact absurd (eq_comm.mp (eq_of_beq hkk)) h
      | false => rfl
    simp [lookupField, hk]
  | cons kv rest ih =>
    obtain ⟨k0, v0⟩ := kv
    cases hk0 : k0 == name with
    | true => simp [lookupField, hk0]
    | false => simp [lookupField, hk0, ih]

theorem parseFieldWith_append_undeclared
    (pz : ZodType → List String → JsValue → Except (List ZodIssue) JsValue)
    (path : List String) (kvs : List (String × JsValue)) (k : String) (v : JsValue)
    (f : String × ZodType × Bool) (h : f.1 ≠ k) :
    parseFieldWith pz path (kvs ++ [(k, v)]) f = parseFieldWith pz path kvs f := by
  simp only [parseFieldWith, lookupField_append_undeclared kvs k v f.1 h]

theorem parseZodF_strip_append_undeclared (n : Nat)
    (fields : List (String × ZodType × Bool)) (path : List String)
    (kvs : List (String × JsValue)) (k : String) (v : JsValue)
    (h : ∀ f ∈ fields, f.1 ≠ k) :
    parseZodF (n + 1) (.zobject fields false) path (.obj (kvs ++ [(k, v)])) =
      parseZodF (n + 1) (.zobject fields false) path (.obj kvs) := by
  have hmap :
      fields.map (parseFieldWith (fun t p w => parseZodF n t p w) path (kvs ++ [(k, v)])) =
        fields.map (parseFieldWith (fun t p w => parseZodF n t p w) path kvs) :=
    List.map_congr_left
      (fun f hf => parseFieldWith_append_undeclared _ path kvs k v f (h f hf))
  simp only [parseZodF, hmap, Bool.false_and, Bool.false_eq_true, if_false]

theorem parseZodF_strict_rejects_undeclared (n : Nat)
    (fields : List (String × ZodType × Bool)) (path : List String)
    (kvs : List (String × JsValue))
    (h : ∃ kv ∈ kvs, ∀ f ∈ fields, f.1 ≠ kv.1) :
    exceptIsOk (parseZodF (n + 1) (.zobject fields true) path (.obj kvs)) = false := by
  have hany : (kvs.any (fun kv => fields.all (fun f => !(f.1 == kv.1)))) = true := by
    obtain ⟨kv, hkv, hne⟩ := h
    simp only [List.any_eq_true, List.all_eq_true]
    exact ⟨kv, hkv, fun f hf => by simpa using hne f hf⟩
  simp only [parseZodF, hany, Bool.true_and, if_true]
  generalize ((fields.map (parseFieldWith (fun t p w => parseZodF n t p w) path kvs)).foldr
      (fun r acc => match r with | some (.error is) => is ++ acc | _ => acc) []) = issues
  cases issues <;> simp [exceptIsOk]

/-- Arguments for `create_order` holding the required fields plus one field
declared nowhere in `createOrderSchema`. -/
def orderArgsWithExtra : JsValue :=
  .obj [("intent", .str "CAPTURE"),
        ("purchase_units",
          .arr [.obj [("amount",
            .obj [("currency_code", .str "USD"), ("value", .str "10.00")])]]),
        ("unexpected_field", .str "surprise")]

/-- C4 (counterexample): `createOrderSchema` is not closed. Validating
`create_order` arguments that contain the undeclared field
`unexpected_field` *succeeds* — the extra field is silently stripped from
the validated result rather than rejected. -/
theorem claim_C4_counterexample :
    (validateInput "create_order" orderArgsWithExtra).1 =
      .ok (.obj [("intent", .str "CAPTURE"),
                 ("purchase_units",
                   .arr [.obj [("amount",
                     .obj [("currency_code", .str "USD"),
                           ("value", .str "10.00")])]])]) := by
  rfl

/-- Required-fields-only, type-conforming arguments for each tool registered
in `schemaMap` (optional fields omitted everywhere). -/
def minimalConformingArgs : String → JsValue
  | "create_payment_token" =>
    .obj [("customer", .obj []),
          ("payment_source", .obj [("card",
            .obj [("number", .str "4111111111111111"),
                  ("expiry", .str "1230"),
                  ("name", .str "J Doe"),
                  ("security_code", .str "123")])])]
  | "create_order" =>
    .obj [("intent", .str "CAPTURE"),
          ("purchase_units", .arr [.obj [("amount",
            .obj [("currency_code", .str "USD"), ("value", .str "10.00")])]])]
  | "capture_order" => .obj [("order_id", .str "5O190127TN364715T")]
  | "create_payment" =>
    .obj [("intent", .str "sale"),
          ("payer", .obj [("payment_method", .str "paypal")]),
          ("transactions", .arr [.obj [("amount",
            .obj [("currency_code", .str "USD"), ("value", .str "1.00")])]]),
          ("redirect_urls",
            .obj [("return_url", .str "https://example.com/ok"),
                  ("cancel_url", .str "https://example.com/no")])]
  | "create_subscription" =>
    .obj [("plan_id", .str "P-123"),
          ("subscriber", .obj [("name", .obj [("given_name", .str "Ann")]),
                               ("email_address", .str "ann@example.com")])]
  | "create_product" => .obj [("name", .str "Widget"), ("type", .str "PHYSICAL")]
  | "create_invoice" => .obj [("detail", .obj [("currency_code", .str "USD")])]
  | "create_payout" =>
    .obj [("sender_batch_header", .obj [("sender_batch_id", .str "batch-1")]),
          ("items", .arr [])]
  | "get_userinfo" => .obj []
  | "create_web_profile" => .obj [("name", .str "Profile A")]
  | _ => .null

/-- C4 (amended): only the `.strict()` user schemas are closed.  (i) For any
strip-mode (non-strict) object schema — every payment and business shape —
appending an undeclared field leaves the validation result unchanged, so
undeclared fields never cause rejection; (ii) a strict object schema rejects
any binding whose key is undeclared; (iii) for every tool in `schemaMap`,
supplying exactly the declared required fields with conforming types
validates successfully. -/
theorem claim_C4_amended :
    (∀ (fields : List (String × ZodType × Bool)) (path : List String)
       (kvs : List (String × JsValue)) (k : String) (v : JsValue),
       (∀ f ∈ fields, f.1 ≠ k) →
       parseZod (.zobject fields false) path (.obj (kvs ++ [(k, v)])) =
         parseZod (.zobject fields false) path (.obj kvs)) ∧
    (∀ (fields : List (String × ZodType × Bool)) (path : List String)
       (kvs : List (String × JsValue)),
       (∃ kv ∈ kvs, ∀ f ∈ fields, f.1 ≠ kv.1) →
       exceptIsOk (parseZod (.zobject fields true) path (.obj kvs)) = false) ∧
    schemaMap.all
      (fun p => exceptIsOk (validateInput p.1 (minimalConformingArgs p.1)).1) = true := by
  refine ⟨?_, ?_, by rfl⟩
  · intro fields path kvs k v h
    exact parseZodF_strip_append_undeclared 999 fields path kvs k v h
  · intro fields path kvs h
    exact parseZodF_strict_rejects_undeclared 999 fields path kvs h

/-- C4 witness for the amended claim at concrete inputs: appending the
undeclared key `b` to a conforming object leaves a strip-mode parse
unchanged, and the same undeclared key makes a strict parse fail. -/
theorem claim_C4_amended_witness :
    (parseZod (.zobject [("a", .zstring [], false)] false) []
        (.obj [("a", .str "x"), ("b", .null)]) =
      parseZod (.zobject [("a", .zstring [], false)] false) [] (.obj [("a", .str "x")])) ∧
    exceptIsOk (parseZod (.zobject [("a", .zstring [], false)] true) []
        (.obj [("a", .str "x"), ("b", .null)])) = false :=
  ⟨claim_C4_amended.1 [("a", .zstring [], false)] [] [("a", .str "x")] "b" .null
      (by intro f hf; simp at hf; simp [hf]),
    claim_C4_amended.2.1 [("a", .zstring [], false)] [] [("a", .str "x"), ("b", .null)]
      ⟨("b", .null), by simp, by intro f hf; simp at hf; simp [hf]⟩⟩

/-! ## PayPal authentication service (src/services/auth.service.ts)

`Date.now()` instants and token lifetimes are `Int` milliseconds.  The token
endpoint's behaviour is a parameter `tokenReply`: what one `POST
/v1/oauth2/token` exchange would currently return (a body, or a
network/HTTP/parse failure).  Each outbound action is recorded as a
`NetEvent`, so "number of acquisitions" is the number of `tokenExchange`
events of a run. -/

/-- The `PayPalAuthConfig` passed to the service constructor. -/
structure PayPalAuthConfig where
  clientId : String
  clientSecret : String
  environment : String

/-- A token-endpoint response body (`TokenResponse` in the source), with the
locally added `expiration` instant (absent on the wire, hence `Option`). -/
structure TokenResponse where
  access_token : String
  token_type : String
  app_id : String
  expires_in : Int
  nonce : String
  scope : String
  expiration : Option Int

/-- The mutable `tokenData` slot of `PayPalAuthService`. -/
structure AuthState where
  tokenData : Option TokenResponse

/-- An outbound network action.  `tokenExchange` records the transport
credentials `clientId:clientSecret` (base64 bookkeeping elided — the encoding
is injective and no claim depends on it). -/
inductive NetEvent where
  | tokenExchange (basicCredentials : String)
  | resourceCall (attempt : Nat) (url : String) (method : String)
      (authHeader : Option String) (isRetry : Bool)

/-- `getAccessToken()` (lines 140–173): one unauthenticated exchange against
the token endpoint; on success the body is stored with
`expiration = Date.now() + expires_in * 1000 - 60000` and the token string
returned; on any failure the stored state is untouched and a generic
`Error('Failed to authenticate with PayPal API')` is thrown. -/
def getAccessToken (cfg : PayPalAuthConfig) (now : Int)
    (tokenReply : Except String TokenResponse) (s : AuthState) :
    AuthState × Except String String × List NetEvent :=
  match tokenReply with
  | .ok r =>
    let stored : TokenResponse :=
      { r with expiration := some (now + r.expires_in * 1000 - 60000) }
    (⟨some stored⟩, .ok stored.access_token,
     [.tokenExchange (cfg.clientId ++ ":" ++ cfg.clientSecret)])
  | .error _ =>
    (s, .error "Failed to authenticate with PayPal API",
     [.tokenExchange (cfg.clientId ++ ":" ++ cfg.clientSecret)])

/-- `ensureAccessToken()` (lines 127–135): return the cached token when
`this.tokenData && this.tokenData.expiration && this.tokenData.expiration >
Date.now()` (JS truthiness of the number `expiration` is `≠ 0`), otherwise
acquire a new one. -/
def ensureAccessToken (cfg : PayPalAuthConfig) (now : Int)
    (tokenReply : Except String TokenResponse) (s : AuthState) :
    AuthState × Except String String × List NetEvent :=
  match s.tokenData with
  | some t =>
    match t.expiration with
    | some e =>
      if e ≠ 0 ∧ e > now then (s, .ok t.access_token, [])
      else getAccessToken cfg now tokenReply s
    | none => getAccessToken cfg now tokenReply s
  | none => getAccessToken cfg now tokenReply s

/-- C1: with a cached credential whose stored expiry is strictly in the
future, `ensureAccessToken` returns it with no acquisition and no state
change; otherwise it performs exactly one token acquisition (one
`tokenExchange` event) and, when the exchange succeeds, returns the newly
acquired credential and caches it with the computed expiry. -/
theorem claim_C1_ensureAccessToken (cfg : PayPalAuthConfig) (now : Int)
    (tokenReply : Except String TokenResponse) (s : AuthState) (hnow : 0 ≤ now) :
    (∀ t e, s.tokenData = some t → t.expiration = some e → now < e →
      ensureAccessToken cfg now tokenReply s = (s, .ok t.access_token, [])) ∧
    ((∀ t e, s.tokenData = some t → t.expiration = some e → e ≤ now) →
      ensureAccessToken cfg now tokenReply s = getAccessToken cfg now tokenReply s ∧
      (ensureAccessToken cfg now tokenReply s).2.2 =
        [.tokenExchange (cfg.clientId ++ ":" ++ cfg.clientSecret)] ∧
      (∀ r, tokenReply = .ok r →
        (ensureAccessToken cfg now tokenReply s).2.1 = .ok r.access_token ∧
        (ensureAccessToken cfg now tokenReply s).1.tokenData =
          some { r with expiration := some (now + r.expires_in * 1000 - 60000) })) := by
  constructor
  · intro t e ht he hlt
    have hne : e ≠ 0 := by omega
    simp only [ensureAccessToken, ht, he]
    rw [if_pos ⟨hne, hlt⟩]
  · intro hmiss
    have hgo : ensureAccessToken cfg now tokenReply s = getAccessToken cfg now tokenReply s := by
      cases hs : s.tokenData with
      | none => simp only [ensureAccessToken, hs]
      | some t =>
        cases he : t.expiration with
        | none => simp only [ensureAccessToken, hs, he]
        | some e =>
          have hle : e ≤ now := hmiss t e hs he
          simp only [ensureAccessToken, hs, he]
          rw [if_neg (by omega)]
    refine ⟨hgo, ?_, ?_⟩
    · rw [hgo]
      cases tokenReply <;> rfl
    · intro r hr
      rw [hgo, hr]
      exact ⟨rfl, rfl⟩

/-- C1 witness: at `now = 1000` with an empty cache and a successful
exchange, one acquisition happens and the new credential is returned. -/
theorem claim_C1_ensureAccessToken_witness :
    (∀ t e, (AuthState.mk none).tokenData = some t → t.expiration = some e →
      (1000 : Int) < e →
      ensureAccessToken ⟨"cid", "csec", "sandbox"⟩ 1000
        (.ok ⟨"tokA", "Bearer", "app", 32400, "n", "s", none⟩) ⟨none⟩ =
        (⟨none⟩, .ok t.access_token, [])) ∧
    ((∀ t e, (AuthState.mk none).tokenData = some t → t.expiration = some e →
      e ≤ (1000 : Int)) →
      ensureAccessToken ⟨"cid", "csec", "sandbox"⟩ 1000
          (.ok ⟨"tokA", "Bearer", "app", 32400, "n", "s", none⟩) ⟨none⟩ =
        getAccessToken ⟨"cid", "csec", "sandbox"⟩ 1000
          (.ok ⟨"tokA", "Bearer", "app", 32400, "n", "s", none⟩) ⟨none⟩ ∧
      (ensureAccessToken ⟨"cid", "csec", "sandbox"⟩ 1000
          (.ok ⟨"tokA", "Bearer", "app", 32400, "n", "s", none⟩) ⟨none⟩).2.2 =
        [.tokenExchange "cid:csec"] ∧
      (∀ r, (.ok ⟨"tokA", "Bearer", "app", 32400, "n", "s", none⟩ :
          Except String TokenResponse) = .ok r →
        (ensureAccessToken ⟨"cid", "csec", "sandbox"⟩ 1000
            (.ok ⟨"tokA", "Bearer", "app", 32400, "n", "s", none⟩) ⟨none⟩).2.1 =
          .ok r.access_token ∧
        (ensureAccessToken ⟨"cid", "csec", "sandbox"⟩ 1000
            (.ok ⟨"tokA", "Bearer", "app", 32400, "n", "s", none⟩) ⟨none⟩).1.tokenData =
          some { r with expiration := some (1000 + r.expires_in * 1000 - 60000) })) :=
  claim_C1_ensureAccessToken ⟨"cid", "csec", "sandbox"⟩ 1000
    (.ok ⟨"tokA", "Bearer", "app", 32400, "n", "s", none⟩) ⟨none⟩ (by norm_num)

/-! ## Axios pipeline with the auth interceptors (constructor, lines 61–115)

`axiosDispatch` models `this.axiosInstance(request)` for a resource call: the
request interceptor (the token endpoint itself is exempt and never dispatched
through this instance), the outbound call, and the response interceptor with
its single 401-triggered replay.  `responses` maps the attempt index (0 for
the original call, 1 for the replay) to the resource endpoint's response;
axios treats any status outside 200–299 as an error carrying that response. -/

/-- An in-flight request: target, method, attached authorization header, and
the interceptor's `__isRetry` marker. -/
structure AxiosRequest where
  url : String
  method : String
  authHeader : Option String
  isRetry : Bool

/-- An HTTP response from the resource endpoint. -/
structure HttpResponse where
  status : Nat
  body : JsValue

/-- How a resource call concludes for its caller. -/
inductive ApiOutcome where
  | success (resp : HttpResponse)
  | apiError (resp : HttpResponse)
  | authFailure (msg : String)

/-- `` `${token_type} ${access_token}` `` from the current token slot. -/
def authHeaderOf (s : AuthState) : Option String :=
  match s.tokenData with
  | some t => some (t.token_type ++ " " ++ t.access_token)
  | none => none

/-- One pass of the axios instance over a resource request, including the
single recursive replay the response interceptor performs for a 401 on a
call not yet marked `__isRetry`. -/
def axiosDispatch (cfg : PayPalAuthConfig) (now : Int)
    (tokenReply : Except String TokenResponse) (responses : Nat → HttpResponse)
    (attempt : Nat) (s : AuthState) (req : AxiosRequest) :
    AuthState × ApiOutcome × List NetEvent :=
  match ensureAccessToken cfg now tokenReply s with
  | (s1, tokRes, ev1) =>
    match tokRes with
    | .error e => (s1, .authFailure e, ev1)
    | .ok _ =>
      let hdr1 : Option String :=
        match authHeaderOf s1 with
        | some h => some h
        | none => req.authHeader
      let req1 : AxiosRequest := { req with authHeader := hdr1 }
      let resp := responses attempt
      let ev2 := ev1 ++ [.resourceCall attempt req1.url req1.method req1.authHeader req1.isRetry]
      if 200 ≤ resp.status ∧ resp.status < 300 then
        (s1, .success resp, ev2)
      else
        if hr : resp.status = 401 ∧ req.isRetry = false then
          match ensureAccessToken cfg now tokenReply ⟨none⟩ with
          | (s2, tokRes2, ev3) =>
            match tokRes2 with
            | .error e => (s2, .authFailure e, ev2 ++ ev3)
            | .ok _ =>
              let hdr2 : Option String :=
                match authHeaderOf s2 with
                | some h => some h
                | none => req.authHeader
              let req2 : AxiosRequest := { req with isRetry := true, authHeader := hdr2 }
              match axiosDispatch cfg now tokenReply responses (attempt + 1) s2 req2 with
              | (s3, out, ev4) => (s3, out, ev2 ++ ev3 ++ ev4)
        else
          (s1, .apiError resp, ev2)
termination_by (if req.isRetry then 0 else 1)
decreasing_by simp [hr.2]

/-- Number of resource-endpoint calls recorded in a trace. -/
def countResourceCalls : List NetEvent → Nat
  | [] => 0
  | .resourceCall _ _ _ _ _ :: rest => countResourceCalls rest + 1
  | _ :: rest => countResourceCalls rest

theorem countResourceCalls_append (a b : List NetEvent) :
    countResourceCalls (a ++ b) = countResourceCalls a + countResourceCalls b := by
  induction a with
  | nil => simp [countResourceCalls]
  | cons ev rest ih =>
    cases ev <;> simp [countResourceCalls, ih] <;> omega

theorem countResourceCalls_ensure (cfg : PayPalAuthConfig) (now : Int)
    (tokenReply : Except String TokenResponse) (s : AuthState) :
    countResourceCalls (ensureAccessToken cfg now tokenReply s).2.2 = 0 := by
  have hget : countResourceCalls (getAccessToken cfg now tokenReply s).2.2 = 0 := by
    cases tokenReply <;> simp [getAccessToken, countResourceCalls]
  cases hs : s.tokenData with
  | none => simp [ensureAccessToken, hs, hget]
  | some t =>
    cases he : t.expiration with
    | none => simp [ensureAccessToken, hs, he, hget]
    | some e =>
      by_cases hc : e ≠ 0 ∧ e > now
      · simp [ensureAccessToken, hs, he, hc, countResourceCalls]
      · simp only [ensureAccessToken, hs, he, if_neg hc]
        exact hget

theorem axiosDispatch_count_le_one (cfg : PayPalAuthConfig) (now : Int)
    (tokenReply : Except String TokenResponse) (responses : Nat → HttpResponse)
    (attempt : Nat) (s : AuthState) (req : AxiosRequest)
    (hr : req.isRetry = true) :
    countResourceCalls (axiosDispatch cfg now tokenReply responses attempt s req).2.2 ≤ 1 := by
  rw [axiosDispatch]
  rcases hEns : ensureAccessToken cfg now tokenReply s with ⟨s1, tokRes, ev1⟩
  have hev1 : countResourceCalls ev1 = 0 := by
    have h0 := countResourceCalls_ensure cfg now tokenReply s
    rw [hEns] at h0
    exact h0
  cases tokRes with
  | error e => simp [hev1]
  | ok tok =>
    by_cases hs : 200 ≤ (responses attempt).status ∧ (responses attempt).status < 300
    · simp [hs, countResourceCalls_append, hev1, countResourceCalls]
    · have hcond : ¬((responses attempt).status = 401 ∧ req.isRetry = false) := by
        simp [hr]
      simp [hs, hcond, countResourceCalls_append, hev1, countResourceCalls]

theorem axiosDispatch_count_le_two (cfg : PayPalAuthConfig) (now : Int)
    (tokenReply : Except String TokenResponse) (responses : Nat → HttpResponse)
    (attempt : Nat) (s : AuthState) (req : AxiosRequest) :
    countResourceCalls (axiosDispatch cfg now tokenReply responses attempt s req).2.2 ≤ 2 := by
  cases hr : req.isRetry with
  | true =>
    exact le_trans
      (axiosDispatch_count_le_one cfg now tokenReply responses attempt s req hr)
      (by norm_num)
  | false =>
    rw [axiosDispatch]
    rcases hEns : ensureAccessToken cfg now tokenReply s with ⟨s1, tokRes, ev1⟩
    have hev1 : countResourceCalls ev1 = 0 := by
      have h0 := countResourceCalls_ensure cfg now tokenReply s
      rw [hEns] at h0
      exact h0
    cases tokRes with
    | error e => simp [hev1]
    | ok tok =>
      by_cases hs : 200 ≤ (responses attempt).status ∧ (responses attempt).status < 300
      · simp [hs, countResourceCalls_append, hev1, countResourceCalls]
      · by_cases h401 : (responses attempt).status = 401
        · rcases hEns2 : ensureAccessToken cfg now tokenReply ⟨none⟩ with ⟨s2, tokRes2, ev3⟩
          have hev3 : countResourceCalls ev3 = 0 := by
            have h0 := countResourceCalls_ensure cfg now tokenReply ⟨none⟩
            rw [hEns2] at h0
            exact h0
          cases tokRes2 with
          | error e =>
            simp [hs, h401, hr, hEns2, countResourceCalls_append, hev1, hev3,
              countResourceCalls]
          | ok tok2 =>
            rcases hRec : axiosDispatch cfg now tokenReply responses (attempt + 1) s2 { req with isRetry := true, authHeader := (match authHeaderOf s2 with | some h => some h | none => req.authHeader) } with ⟨s3, out, ev4⟩
            have hev4 : countResourceCalls ev4 ≤ 1 := by
              have h1 := axiosDispatch_count_le_one cfg now tokenReply responses
                (attempt + 1) s2 { req with isRetry := true, authHeader := (match authHeaderOf s2 with | some h => some h | none => req.authHeader) } rfl
              rw [hRec] at h1
              exact h1
            simp [hs, h401, hr, hEns2, hRec, countResourceCalls_append, hev1, hev3,
              countResourceCalls]
            omega
        · have hcond : ¬((responses attempt).status = 401 ∧ req.isRetry = false) := by
            simp [h401]
          simp [hs, hcond, countResourceCalls_append, hev1, countResourceCalls]

/-- C2: a resource call (not yet replayed) that receives a 401 clears the
cached credential, acquires a fresh one, and replays the identical request
exactly once with the new credential attached; a second 401 on the replay is
surfaced to the caller as the terminal failure.  In addition, for any
environment, any state and any request, a run of the pipeline never makes
more than two resource calls (the original plus at most one replay). -/
theorem claim_C2_single_replay_on_401 (cfg : PayPalAuthConfig) (now : Int)
    (responses : Nat → HttpResponse) (s : AuthState) (req : AxiosRequest)
    (t r : TokenResponse) (e : Int)
    (hnow : 0 ≤ now) (hretry : req.isRetry = false)
    (ht : s.tokenData = some t) (he : t.expiration = some e) (hlt : now < e)
    (hexp : 60 < r.expires_in)
    (h401a : (responses 0).status = 401) (h401b : (responses 1).status = 401) :
    axiosDispatch cfg now (.ok r) responses 0 s req =
      (⟨some { r with expiration := some (now + r.expires_in * 1000 - 60000) }⟩,
       .apiError (responses 1),
       [.resourceCall 0 req.url req.method
          (some (t.token_type ++ " " ++ t.access_token)) false,
        .tokenExchange (cfg.clientId ++ ":" ++ cfg.clientSecret),
        .resourceCall 1 req.url req.method
          (some (r.token_type ++ " " ++ r.access_token)) true]) ∧
    (∀ attempt s0 req0,
      countResourceCalls (axiosDispatch cfg now (.ok r) responses attempt s0 req0).2.2 ≤ 2) := by
  constructor
  · have hEns1 : ensureAccessToken cfg now (.ok r) s = (s, .ok t.access_token, []) := by
      simp only [ensureAccessToken, ht, he]
      rw [if_pos ⟨by omega, hlt⟩]
    have hnot2xx : ¬(200 ≤ (responses 0).status ∧ (responses 0).status < 300) := by
      rw [h401a]; omega
    have hstored : ensureAccessToken cfg now (.ok r) ⟨none⟩ =
        (⟨some { r with expiration := some (now + r.expires_in * 1000 - 60000) }⟩,
         .ok r.access_token,
         [.tokenExchange (cfg.clientId ++ ":" ++ cfg.clientSecret)]) := rfl
    rw [axiosDispatch, hEns1]
    simp only [hnot2xx, if_false, h401a, hretry, and_self, dif_pos, hstored,
      authHeaderOf, ht]
    have hEns2 : ensureAccessToken cfg now (.ok r)
        ⟨some { r with expiration := some (now + r.expires_in * 1000 - 60000) }⟩ =
        (⟨some { r with expiration := some (now + r.expires_in * 1000 - 60000) }⟩,
         .ok r.access_token, []) := by
      simp only [ensureAccessToken]
      rw [if_pos ⟨by omega, by omega⟩]
    have hnot2xx1 : ¬(200 ≤ (responses 1).status ∧ (responses 1).status < 300) := by
      rw [h401b]; omega
    rw [axiosDispatch, hEns2]
    simp [hnot2xx1, authHeaderOf, hretry]
  · intro attempt s0 req0
    exact axiosDispatch_count_le_two cfg now (.ok r) responses attempt s0 req0

/-- C2 witness: a concrete environment answering 401 to both attempts, with a
valid cached token at time 1000 and a successful refresh exchange. -/
theorem claim_C2_single_replay_on_401_witness :
    axiosDispatch ⟨"cid", "csec", "sandbox"⟩ 1000
        (.ok ⟨"tokB", "Bearer", "app", 32400, "n", "s", none⟩)
        (fun _ => ⟨401, .null⟩) 0 ⟨some ⟨"tokA", "Bearer", "app", 32400, "n", "s", some 5000⟩⟩
        ⟨"/v2/checkout/orders", "post", none, false⟩ =
      (⟨some ⟨"tokB", "Bearer", "app", 32400, "n", "s", some (1000 + 32400 * 1000 - 60000)⟩⟩,
       .apiError ⟨401, .null⟩,
       [.resourceCall 0 "/v2/checkout/orders" "post" (some "Bearer tokA") false,
        .tokenExchange "cid:csec",
        .resourceCall 1 "/v2/checkout/orders" "post" (some "Bearer tokB") true]) ∧
    (∀ attempt s0 req0,
      countResourceCalls (axiosDispatch ⟨"cid", "csec", "sandbox"⟩ 1000
          (.ok ⟨"tokB", "Bearer", "app", 32400, "n", "s", none⟩)
          (fun _ => ⟨401, .null⟩) attempt s0 req0).2.2 ≤ 2) := by
  have h := claim_C2_single_replay_on_401 ⟨"cid", "csec", "sandbox"⟩ 1000
    (fun _ => ⟨401, .null⟩) ⟨some ⟨"tokA", "Bearer", "app", 32400, "n", "s", some 5000⟩⟩
    ⟨"/v2/checkout/orders", "post", none, false⟩
    ⟨"tokA", "Bearer", "app", 32400, "n", "s", some 5000⟩
    ⟨"tokB", "Bearer", "app", 32400, "n", "s", none⟩ 5000
    (by norm_num) rfl rfl rfl (by norm_num) (by norm_num) rfl rfl
  simpa using h

/-! ## MCP server dispatcher (server entry point)

The CallTool handler, in source order: ensure an access token, resolve the
tool handler (`McpError(MethodNotFound)` when unknown), validate the input
(`McpError(InvalidParams)` on failure), run the handler, and wrap its result.
`McpError`s escape the surrounding `try` as protocol-level failures; any other
thrown error (a failed `ensureAccessToken`, or a domain error from tool
logic) is caught and turned into a successful response whose payload carries
`isError: true` and an `Error: ...` text. -/

/-- What a tool handler does with its validated arguments: the result object
it produces or the domain error it throws, together with the resource calls
it makes through the authenticated gateway. -/
inductive ToolOutcome where
  | ok (result : JsValue)
  | domainError (msg : String)

/-- A tool handler's behaviour. -/
def ToolHandler := JsValue → ToolOutcome × List NetEvent

/-- The CallTool response: a text payload with the `isError` flag, or a
protocol-level error. -/
inductive CallOutcome where
  | reply (text : String) (isError : Bool)
  | protocolError (e : McpError)

mutual
/-- `JSON.stringify` (structure only — no claim inspects serialized text). -/
def stringify : JsValue → String
  | .null => "null"
  | .bool true => "true"
  | .bool false => "false"
  | .num n => n.repr
  | .str s => "\"" ++ s ++ "\""
  | .arr elems => "[" ++ stringifyElems elems ++ "]"
  | .obj fields => "\x7b" ++ stringifyFields fields ++ "\x7d"

/-- Elements of a serialized array. -/
def stringifyElems : List JsValue → String
  | [] => ""
  | [v] => stringify v
  | v :: rest => stringify v ++ "," ++ stringifyElems rest

/-- Members of a serialized object. -/
def stringifyFields : List (String × JsValue) → String
  | [] => ""
  | [(k, v)] => "\"" ++ k ++ "\":" ++ stringify v
  | (k, v) :: rest => "\"" ++ k ++ "\":" ++ stringify v ++ "," ++ stringifyFields rest
end

/-- The CallTool request handler.  `handlers` abstracts `getToolHandler`;
`tokenReply` the token endpoint.  Returns the new auth state, the response,
the outbound network events, and `validateInput`'s log lines. -/
def callToolHandler (cfg : PayPalAuthConfig) (now : Int)
    (tokenReply : Except String TokenResponse)
    (handlers : String → Option ToolHandler)
    (s : AuthState) (name : String) (args : JsValue) :
    AuthState × CallOutcome × List NetEvent × List LogEvent :=
  match ensureAccessToken cfg now tokenReply s with
  | (s1, .error e, ev1) =>
    (s1, .reply ("Error: " ++ e) true, ev1, [])
  | (s1, .ok _, ev1) =>
    match handlers name with
    | none => (s1, .protocolError ⟨.methodNotFound, "Unknown tool: " ++ name⟩, ev1, [])
    | some handler =>
      match validateInput name args with
      | (.error err, logs) => (s1, .protocolError err, ev1, logs)
      | (.ok validatedArgs, logs) =>
        match handler validatedArgs with
        | (.ok result, hev) => (s1, .reply (stringify result) false, ev1 ++ hev, logs)
        | (.domainError m, hev) => (s1, .reply ("Error: " ++ m) true, ev1 ++ hev, logs)

/-! ## Tool registries and startup (C6) -/

/-- A registered tool descriptor; `description` and `inputSchema` play no
role in any claim and are elided. -/
structure ToolDescr where
  name : String
  handler : ToolHandler

/-- The server constructor plus `setupRequestHandlers`: the three registries
are only spread into one flat list for ListTools — nothing inspects them and
nothing can fail, in particular there is no duplicate-name check. -/
def serverInit (payment business user : List ToolDescr) :
    Except String (List ToolDescr) :=
  .ok (payment ++ business ++ user)

/-- `getToolHandler`: first match wins, searching payment, then business,
then user tools. -/
def getToolHandler (payment business user : List ToolDescr)
    (toolName : String) : Option ToolHandler :=
  match (payment.find? (fun tool => tool.name == toolName)).map ToolDescr.handler with
  | some h => some h
  | none =>
    match (business.find? (fun tool => tool.name == toolName)).map ToolDescr.handler with
    | some h => some h
    | none => (user.find? (fun tool => tool.name == toolName)).map ToolDescr.handler

/-- The names in `paymentTools` (payment tools source file), in order. -/
def paymentToolNames : List String :=
  ["create_payment_token", "create_order", "capture_order", "create_payment",
   "create_subscription"]

/-- The names in `businessTools` (business tools source file), in order. -/
def businessToolNames : List String :=
  ["create_product", "create_invoice", "create_payout", "get_product", "get_invoice"]

/-- The names in `userTools` (src/tools/user.tools.ts), in order. -/
def userToolNames : List String :=
  ["get_userinfo", "create_web_profile", "get_web_profiles", "get_web_profile",
   "update_web_profile", "delete_web_profile"]

/-- A handler body for scenarios in which the handler is never invoked. -/
def irrelevantHandler : ToolHandler := fun _ => (.ok .null, [])

/-- Handler resolution over the registered tool names; the bodies are
irrelevant to the claims that use this table (they are never invoked). -/
def registeredHandlers : String → Option ToolHandler := fun n =>
  if (paymentToolNames ++ businessToolNames ++ userToolNames).contains n then
    some irrelevantHandler
  else none

/-- C6 (counterexample): startup performs no duplicate-name rejection — a
pair of registries sharing the name `dup_tool` initializes successfully and
both descriptors are listed. -/
theorem claim_C6_counterexample :
    serverInit [⟨"dup_tool", irrelevantHandler⟩] [⟨"dup_tool", irrelevantHandler⟩] [] =
      .ok [⟨"dup_tool", irrelevantHandler⟩, ⟨"dup_tool", irrelevantHandler⟩] := rfl

/-- C6 (amended): startup never fails — `serverInit` returns the plain
concatenation of the three registries with no duplicate check — and the
uniqueness invariant nevertheless holds for the shipped registries, whose
sixteen tool names are pairwise distinct. -/
theorem claim_C6_amended :
    (∀ payment business user, serverInit payment business user =
      .ok (payment ++ business ++ user)) ∧
    (paymentToolNames ++ businessToolNames ++ userToolNames).Nodup :=
  ⟨fun _ _ _ => rfl, by decide⟩

/-- C3 (counterexample): `callTool("create_order", {intent:"CAPTURE"})` with
no cached credential.  The dispatcher ensures a token *before* validating,
so a token-exchange network call happens even though validation then rejects
the request — refuting "no token-exchange call is made for that request,
regardless of whether a valid credential is cached". -/
theorem claim_C3_counterexample :
    callToolHandler ⟨"cid", "csec", "sandbox"⟩ 1000
        (.ok ⟨"tokA", "Bearer", "app", 32400, "n", "s", none⟩)
        registeredHandlers ⟨none⟩ "create_order" (.obj [("intent", .str "CAPTURE")]) =
      (⟨some ⟨"tokA", "Bearer", "app", 32400, "n", "s", some (1000 + 32400 * 1000 - 60000)⟩⟩,
       .protocolError ⟨.invalidParams,
         "Invalid parameters for create_order: purchase_units: Required"⟩,
       [.tokenExchange "cid:csec"],
       [.error "Validation error for create_order:"]) := by
  rfl

/-- C3 (amended): a CallTool request whose arguments fail validation is
rejected with the `InvalidParams` protocol error carrying the field detail
before the tool handler runs: no resource call occurs for that request, and
when a valid credential is cached no network call at all occurs; however the
dispatcher ensures a token *before* validating, so with an absent or stale
credential one token-exchange call does precede the rejection. -/
theorem claim_C3_amended (cfg : PayPalAuthConfig) (now : Int)
    (tokenReply : Except String TokenResponse)
    (handlers : String → Option ToolHandler) (s : AuthState) (name : String)
    (args : JsValue) (h : ToolHandler) (s1 : AuthState) (tokStr : String)
    (ev1 : List NetEvent) (err : McpError) (logs : List LogEvent)
    (hh : handlers name = some h)
    (hEns : ensureAccessToken cfg now tokenReply s = (s1, .ok tokStr, ev1))
    (hval : validateInput name args = (.error err, logs)) :
    callToolHandler cfg now tokenReply handlers s name args =
      (s1, .protocolError err, ev1, logs) ∧
    countResourceCalls ev1 = 0 ∧
    (∀ t e, s.tokenData = some t → t.expiration = some e → 0 < e → now < e →
      ev1 = []) := by
  refine ⟨?_, ?_, ?_⟩
  · simp only [callToolHandler, hEns, hh, hval]
  · have h0 := countResourceCalls_ensure cfg now tokenReply s
    rw [hEns] at h0
    exact h0
  · intro t e ht he hpos hlt
    have hhit : ensureAccessToken cfg now tokenReply s = (s, .ok t.access_token, []) := by
      simp only [ensureAccessToken, ht, he]
      rw [if_pos ⟨by omega, hlt⟩]
    rw [hhit] at hEns
    exact (congrArg (fun p => p.2.2) hEns).symm

/-- C3 witness: the amended theorem applied at the concrete
missing-`purchase_units` scenario with an empty credential cache. -/
theorem claim_C3_amended_witness :
    callToolHandler ⟨"cid", "csec", "sandbox"⟩ 1000
        (.ok ⟨"tokA", "Bearer", "app", 32400, "n", "s", none⟩)
        registeredHandlers ⟨none⟩ "create_order" (.obj [("intent", .str "CAPTURE")]) =
      (⟨some ⟨"tokA", "Bearer", "app", 32400, "n", "s", some (1000 + 32400 * 1000 - 60000)⟩⟩,
       .protocolError ⟨.invalidParams,
         "Invalid parameters for create_order: purchase_units: Required"⟩,
       [.tokenExchange "cid:csec"],
       [.error "Validation error for create_order:"]) ∧
    countResourceCalls [.tokenExchange "cid:csec"] = 0 :=
  have h := claim_C3_amended ⟨"cid", "csec", "sandbox"⟩ 1000
    (.ok ⟨"tokA", "Bearer", "app", 32400, "n", "s", none⟩) registeredHandlers
    ⟨none⟩ "create_order" (.obj [("intent", .str "CAPTURE")]) irrelevantHandler
    ⟨some ⟨"tokA", "Bearer", "app", 32400, "n", "s", some (1000 + 32400 * 1000 - 60000)⟩⟩
    "tokA" [.tokenExchange "cid:csec"]
    ⟨.invalidParams, "Invalid parameters for create_order: purchase_units: Required"⟩
    [.error "Validation error for create_order:"] rfl rfl rfl
  ⟨h.1, h.2.1⟩

/-- C7: when the resolved tool handler throws a domain error, the dispatcher
catches it and answers with a successful protocol response whose payload has
`isError: true` and the text `Error: <message>`; when the tool name resolves
to no handler, the `McpError(MethodNotFound)` is rethrown and surfaces as a
protocol-level failure. -/
theorem claim_C7_domain_error_envelope (cfg : PayPalAuthConfig) (now : Int)
    (tokenReply : Except String TokenResponse)
    (handlers : String → Option ToolHandler) (s : AuthState) (name : String)
    (args : JsValue) (s1 : AuthState) (tokStr : String) (ev1 : List NetEvent)
    (hEns : ensureAccessToken cfg now tokenReply s = (s1, .ok tokStr, ev1)) :
    (∀ h vargs logs m hev,
      handlers name = some h →
      validateInput name args = (.ok vargs, logs) →
      h vargs = (.domainError m, hev) →
      callToolHandler cfg now tokenReply handlers s name args =
        (s1, .reply ("Error: " ++ m) true, ev1 ++ hev, logs)) ∧
    (handlers name = none →
      callToolHandler cfg now tokenReply handlers s name args =
        (s1, .protocolError ⟨.methodNotFound, "Unknown tool: " ++ name⟩, ev1, [])) := by
  constructor
  · intro h vargs logs m hev hh hval hrun
    simp only [callToolHandler, hEns, hh, hval, hrun]
  · intro hh
    simp only [callToolHandler, hEns, hh]

/-- C7 witness: a table where `create_order` resolves to a handler throwing
`Error('Failed to create order')` and `no_such_tool` resolves to nothing. -/
theorem claim_C7_domain_error_envelope_witness :
    (callToolHandler ⟨"cid", "csec", "sandbox"⟩ 1000
        (.ok ⟨"tokA", "Bearer", "app", 32400, "n", "s", none⟩)
        (fun n => if n == "create_order" then
            some (fun _ => (.domainError "Failed to create order", []))
          else none)
        ⟨none⟩ "create_order"
        (.obj [("intent", .str "CAPTURE"),
               ("purchase_units", .arr [.obj [("amount",
                 .obj [("currency_code", .str "USD"), ("value", .str "10.00")])]])]) =
      (⟨some ⟨"tokA", "Bearer", "app", 32400, "n", "s", some (1000 + 32400 * 1000 - 60000)⟩⟩,
       .reply "Error: Failed to create order" true,
       [.tokenExchange "cid:csec"], [])) ∧
    (callToolHandler ⟨"cid", "csec", "sandbox"⟩ 1000
        (.ok ⟨"tokA", "Bearer", "app", 32400, "n", "s", none⟩)
        (fun n => if n == "create_order" then
            some (fun _ => (.domainError "Failed to create order", []))
          else none)
        ⟨none⟩ "no_such_tool" .null =
      (⟨some ⟨"tokA", "Bearer", "app", 32400, "n", "s", some (1000 + 32400 * 1000 - 60000)⟩⟩,
       .protocolError ⟨.methodNotFound, "Unknown tool: no_such_tool"⟩,
       [.tokenExchange "cid:csec"], [])) :=
  ⟨(claim_C7_domain_error_envelope ⟨"cid", "csec", "sandbox"⟩ 1000
      (.ok ⟨"tokA", "Bearer", "app", 32400, "n", "s", none⟩)
      (fun n => if n == "create_order" then
          some (fun _ => (.domainError "Failed to create order", []))
        else none)
      ⟨none⟩ "create_order"
      (.obj [("intent", .str "CAPTURE"),
             ("purchase_units", .arr [.obj [("amount",
               .obj [("currency_code", .str "USD"), ("value", .str "10.00")])]])])
      ⟨some ⟨"tokA", "Bearer", "app", 32400, "n", "s", some (1000 + 32400 * 1000 - 60000)⟩⟩
      "tokA" [.tokenExchange "cid:csec"] rfl).1
      (fun _ => (.domainError "Failed to create order", []))
      (.obj [("intent", .str "CAPTURE"),
             ("purchase_units", .arr [.obj [("amount",
               .obj [("currency_code", .str "USD"), ("value", .str "10.00")])]])])
      [] "Failed to create order" [] rfl rfl rfl,
    (claim_C7_domain_error_envelope ⟨"cid", "csec", "sandbox"⟩ 1000
      (.ok ⟨"tokA", "Bearer", "app", 32400, "n", "s", none⟩)
      (fun n => if n == "create_order" then
          some (fun _ => (.domainError "Failed to create order", []))
        else none)
      ⟨none⟩ "no_such_tool" .null
      ⟨some ⟨"tokA", "Bearer", "app", 32400, "n", "s", some (1000 + 32400 * 1000 - 60000)⟩⟩
      "tokA" [.tokenExchange "cid:csec"] rfl).2 rfl⟩

/-! ## Configuration (src/config.ts) and its flow into the auth service -/

/-- A process environment, variable name to optional value. -/
def EnvMap := String → Option String

/-- `getRequiredEnv`: a missing or empty value (JS falsiness) throws. -/
def getRequiredEnv (env : EnvMap) (key : String) : Except String String :=
  match env key with
  | some v =>
    if v == "" then .error ("Missing required environment variable: " ++ key)
    else .ok v
  | none => .error ("Missing required environment variable: " ++ key)

/-- `getOptionalEnv`: `process.env[key] || defaultValue` — an empty string
also falls back to the default. -/
def getOptionalEnv (env : EnvMap) (key defaultValue : String) : String :=
  match env key with
  | some v => if v == "" then defaultValue else v
  | none => defaultValue

/-- Model of JS `parseInt(s, 10)`: an optional sign followed by leading
digits; `none` models `NaN`.  (JS additionally skips leading whitespace and
ignores trailing characters; no claim depends on those cases.) -/
def parseIntJS (s : String) : Option Int :=
  let signed : Int × List Char :=
    match s.data with
    | '-' :: cs => (-1, cs)
    | '+' :: cs => (1, cs)
    | cs => (1, cs)
  match signed.2.takeWhile Char.isDigit with
  | [] => none
  | ds => some (signed.1 * ((ds.foldl (fun acc c => acc * 10 + (c.toNat - 48)) 0 : Nat) : Int))

/-- `config.paypal`. -/
structure PaypalConfig where
  clientId : String
  clientSecret : String
  environment : String
  apiBaseUrl : String
  tokenCacheSeconds : Option Int

/-- `config.server`. -/
structure ServerConfig where
  logLevel : String
  requestTimeout : Option Int
  maxRetries : Option Int
  retryDelay : Option Int

/-- The full `config` object. -/
structure Config where
  paypal : PaypalConfig
  server : ServerConfig

/-- Building `config` from the environment (src/config.ts lines 41–68): the
two required variables in source order, the optional ones with their
defaults, then the environment validation (which throws) and the log-level
fixup (which silently falls back to `info`). -/
def configOf (env : EnvMap) : Except String Config :=
  match getRequiredEnv env "PAYPAL_CLIENT_ID" with
  | .error e => .error e
  | .ok clientId =>
    match getRequiredEnv env "PAYPAL_CLIENT_SECRET" with
    | .error e => .error e
    | .ok clientSecret =>
      let environment := getOptionalEnv env "PAYPAL_ENVIRONMENT" "sandbox"
      let apiBaseUrl :=
        if getOptionalEnv env "PAYPAL_ENVIRONMENT" "sandbox" == "sandbox" then
          "https://api-m.sandbox.paypal.com"
        else "https://api-m.paypal.com"
      let logLevel0 := getOptionalEnv env "LOG_LEVEL" "info"
      let logLevel :=
        if ["error", "warn", "info", "debug"].contains logLevel0 then logLevel0
        else "info"
      if ["sandbox", "live"].contains environment then
        .ok
          { paypal :=
              ⟨clientId, clientSecret, environment, apiBaseUrl,
               parseIntJS (getOptionalEnv env "PAYPAL_TOKEN_CACHE_SECONDS" "3500")⟩,
            server :=
              ⟨logLevel, parseIntJS (getOptionalEnv env "REQUEST_TIMEOUT" "30000"),
               parseIntJS (getOptionalEnv env "MAX_RETRIES" "3"),
               parseIntJS (getOptionalEnv env "RETRY_DELAY" "1000")⟩ }
      else
        .error ("Invalid PayPal environment: " ++ environment ++
          ". Must be sandbox or live.")

/-- The constructor call in the server entry point (`new PayPalAuthService`)
passes exactly `clientId`, `clientSecret` and `environment` — nothing else
of the configuration reaches the auth service. -/
def authConfigOf (c : Config) : PayPalAuthConfig :=
  ⟨c.paypal.clientId, c.paypal.clientSecret, c.paypal.environment⟩

/-- C10: the configured `tokenCacheSeconds` (PAYPAL_TOKEN_CACHE_SECONDS) has
no effect on the authentication service.  Two environments differing only in
that variable produce the same `PayPalAuthConfig` (so every auth-service
behaviour is identical), and the stored expiry is always
`now + expires_in * 1000 - 60000`, with the hard-coded 60-second margin. -/
theorem claim_C10_tokenCacheSeconds_no_effect (env1 env2 : EnvMap)
    (h : ∀ k, k ≠ "PAYPAL_TOKEN_CACHE_SECONDS" → env1 k = env2 k) :
    (configOf env1).map authConfigOf = (configOf env2).map authConfigOf ∧
    (∀ c1 c2, configOf env1 = .ok c1 → configOf env2 = .ok c2 →
      ∀ now tokenReply s,
        ensureAccessToken (authConfigOf c1) now tokenReply s =
          ensureAccessToken (authConfigOf c2) now tokenReply s) ∧
    (∀ cfg now (r : TokenResponse) s,
      (getAccessToken cfg now (.ok r) s).1.tokenData =
        some { r with expiration := some (now + r.expires_in * 1000 - 60000) }) := by
  have hcid : getRequiredEnv env1 "PAYPAL_CLIENT_ID" =
      getRequiredEnv env2 "PAYPAL_CLIENT_ID" := by
    unfold getRequiredEnv; rw [h _ (by decide)]
  have hcs : getRequiredEnv env1 "PAYPAL_CLIENT_SECRET" =
      getRequiredEnv env2 "PAYPAL_CLIENT_SECRET" := by
    unfold getRequiredEnv; rw [h _ (by decide)]
  have henv : getOptionalEnv env1 "PAYPAL_ENVIRONMENT" "sandbox" =
      getOptionalEnv env2 "PAYPAL_ENVIRONMENT" "sandbox" := by
    unfold getOptionalEnv; rw [h _ (by decide)]
  have hll : getOptionalEnv env1 "LOG_LEVEL" "info" =
      getOptionalEnv env2 "LOG_LEVEL" "info" := by
    unfold getOptionalEnv; rw [h _ (by decide)]
  have hrt : getOptionalEnv env1 "REQUEST_TIMEOUT" "30000" =
      getOptionalEnv env2 "REQUEST_TIMEOUT" "30000" := by
    unfold getOptionalEnv; rw [h _ (by decide)]
  have hmr : getOptionalEnv env1 "MAX_RETRIES" "3" =
      getOptionalEnv env2 "MAX_RETRIES" "3" := by
    unfold getOptionalEnv; rw [h _ (by decide)]
  have hrd : getOptionalEnv env1 "RETRY_DELAY" "1000" =
      getOptionalEnv env2 "RETRY_DELAY" "1000" := by
    unfold getOptionalEnv; rw [h _ (by decide)]
  have hmap : (configOf env1).map authConfigOf = (configOf env2).map authConfigOf := by
    simp only [configOf, hcid, hcs, henv, hll, hrt, hmr, hrd]
    cases hc1 : getRequiredEnv env2 "PAYPAL_CLIENT_ID" with
    | error e => rfl
    | ok clientId =>
      cases hc2 : getRequiredEnv env2 "PAYPAL_CLIENT_SECRET" with
      | error e => rfl
      | ok clientSecret =>
        by_cases hcont : getOptionalEnv env2 "PAYPAL_ENVIRONMENT" "sandbox" = "sandbox" ∨
            getOptionalEnv env2 "PAYPAL_ENVIRONMENT" "sandbox" = "live"
        · simp [hcont, Except.map, authConfigOf]
        · simp [hcont, Except.map]
  refine ⟨hmap, ?_, ?_⟩
  · intro c1 c2 hok1 hok2 now tokenReply s
    rw [hok1, hok2] at hmap
    simp only [Except.map] at hmap
    rw [Except.ok.injEq] at hmap
    rw [hmap]
  · intro cfg now r s
    rfl

/-- C10 witness: two concrete environments differing only in
`PAYPAL_TOKEN_CACHE_SECONDS` (100 vs 200). -/
theorem claim_C10_tokenCacheSeconds_no_effect_witness :
    (configOf (fun k => if k == "PAYPAL_TOKEN_CACHE_SECONDS" then some "100"
        else if k == "PAYPAL_CLIENT_ID" then some "cid"
        else if k == "PAYPAL_CLIENT_SECRET" then some "csec" else none)).map authConfigOf =
      (configOf (fun k => if k == "PAYPAL_TOKEN_CACHE_SECONDS" then some "200"
        else if k == "PAYPAL_CLIENT_ID" then some "cid"
        else if k == "PAYPAL_CLIENT_SECRET" then some "csec" else none)).map authConfigOf :=
  (claim_C10_tokenCacheSeconds_no_effect
    (fun k => if k == "PAYPAL_TOKEN_CACHE_SECONDS" then some "100"
      else if k == "PAYPAL_CLIENT_ID" then some "cid"
      else if k == "PAYPAL_CLIENT_SECRET" then some "csec" else none)
    (fun k => if k == "PAYPAL_TOKEN_CACHE_SECONDS" then some "200"
      else if k == "PAYPAL_CLIENT_ID" then some "cid"
      else if k == "PAYPAL_CLIENT_SECRET" then some "csec" else none)
    (fun k hk => by
      have hkb : (k == "PAYPAL_TOKEN_CACHE_SECONDS") = false :=
        beq_eq_false_iff_ne.mpr hk
      simp only [hkb, Bool.false_eq_true, if_false])).1
